import Mathlib

/-!
Verification development for the Model Optimizer command-resolution and
dispatch driver (`model-optimizer/mo/main.py`).

The driver is embedded shallowly:

* the mutable `argparse.Namespace` becomes the record `Argv`, mutated by
  explicit state passing through a chain of step functions mirroring the
  statement blocks of `prepare_ir`;
* exceptions become `Except MoErr`, with `MoErr` covering the exception
  classes distinguished by the top-level handler in `main`;
* external collaborators (the conversion pipeline, `check_requirements`,
  the CLI parsing helpers that can raise, the filesystem) are oracles
  collected in a `World` record; the filesystem is a small `FS` state so
  that output-directory resolution can be stated as a state transformer;
* `emit_ir` is embedded as the trace of finalization passes it applies
  (the passes themselves are external graph transformations).

Helpers that live in modules of the repository outside the embedded file
(`deduce_framework_by_namespace`, `get_model_name`, `refer_to_faq_msg`,
the tuple parsers) are modelled from the natural-language specification;
each such definition carries a doc comment saying so.
-/

set_option maxRecDepth 65536

namespace MO

/-- Exception taxonomy of the driver, covering exactly the classes the
top-level handler in `main` distinguishes: `FileNotFoundError` /
`NotADirectoryError`, the `Error` class of the tool (configuration/model error),
`FrameworkError`, and any other exception. -/
inductive MoErr where
  | fileNotFound (msg : String)
  | notADirectory (msg : String)
  | error (msg : String)
  | frameworkError (msg : String)
  | other (msg : String)
  deriving DecidableEq, Repr

/-- Failure categories reported by the top-level handler, in the order of
its `except` clauses. -/
inductive ErrCategory where
  | fileNotFoundCat
  | configCat
  | frameworkCat
  | internalCat
  deriving DecidableEq, Repr

/-- Python truthiness of an optional string option (`argparse` leaves
unset options as `None`; the empty string is also falsy). -/
def truthyS : Option String → Bool
  | none => false
  | some s => !s.isEmpty

/-- Python truthiness of an optional float option (`0.0` is falsy). The
value is modelled as a rational. -/
def truthyQ : Option ℚ → Bool
  | none => false
  | some q => !(q == 0)

@[simp] theorem truthyS_none : truthyS none = false := rfl

@[simp] theorem truthyS_some (s : String) : truthyS (some s) = !s.isEmpty := rfl

/-- Index of the last occurrence of `c` in `l` (Python `str.rfind`,
returning `none` instead of `-1`). -/
def lastIdxOf (c : Char) : List Char → Option Nat
  | [] => none
  | x :: xs =>
    match lastIdxOf c xs with
    | some i => some (i + 1)
    | none => if x = c then some 0 else none

/-- POSIX `os.path.splitext` on the character list of a path: split off
the extension at the last dot of the last component, except that leading
dots of the last component never start an extension (CPython
`genericpath._splitext` with separator `/`). -/
def splitext (p : List Char) : List Char × List Char :=
  match lastIdxOf '.' p, lastIdxOf '/' p with
  | none, _ => (p, [])
  | some d, none =>
    if (List.range d).all (fun k => decide (p.get? k = some '.')) then (p, [])
    else (p.take d, p.drop d)
  | some d, some si =>
    if si < d then
      if (List.range (d - (si + 1))).all (fun k => decide (p.get? (si + 1 + k) = some '.')) then
        (p, [])
      else
        (p.take d, p.drop d)
    else
      (p, [])

/-- Embedding of `replace_ext` (main.py line 48): split the extension off
`name`; if it equals `old`, return the base with `new` appended, else
fall off the end of the function (Python implicitly returns `None`). -/
def replace_ext (name old new : String) : Option String :=
  if (splitext name.data).2 = old.data then
    some (String.mk ((splitext name.data).1 ++ new.data))
  else
    none

/-- POSIX `os.path.basename` on a character list. -/
def basename (p : List Char) : List Char :=
  match lastIdxOf '/' p with
  | none => p
  | some i => p.drop (i + 1)

/-- Modelled from the spec: `get_model_name` lives in
`mo/utils/cli_parser.py`, which is not under `src/`; per the spec the
derived name is "based solely on path basename minus extension". -/
def get_model_name (p : String) : String :=
  String.mk (splitext (basename p.data)).1

/-- Modelled from the spec: `refer_to_faq_msg` lives in
`mo/utils/utils.py`, which is not under `src/`; it renders the FAQ
pointer appended to several error messages. Its exact text is immaterial
to the claims. -/
def refer_to_faq_msg (q : Nat) : String :=
  " For more information please refer to Model Optimizer FAQ, question #" ++ toString q ++ ". "

/-- Python `str` rendering of an optional string (used when an `Error`
format argument is interpolated into a message; `str(None) = "None"`). -/
def pyStr : Option String → String
  | none => "None"
  | some s => s

/-- Single-quote character, used inside one error message literal. -/
def sq : String := String.singleton (Char.ofNat 39)

/-- Configuration bundle: the fields of the `argparse.Namespace` that the
driver reads or writes. Options Python reassigns with a value of a new
type (comma-splitting) get a separate `_list` field holding the
normalized form. -/
structure Argv where
  framework : Option String := none
  input_model : Option String := none
  saved_model_dir : Option String := none
  input_meta_graph : Option String := none
  input_symbol : Option String := none
  pretrained_model_name : Option String := none
  input_proto : Option String := none
  model_name : Option String := none
  generate_experimental_IR_V10 : Bool := false
  silent : Bool := false
  mean_file : Option String := none
  mean_values : Option String := none
  /-- Parsed content of `--mean_file_offsets`; the raw-string parsing by
  `get_tuple_values` (in `mo/utils/cli_parser.py`, not under `src/`) is
  modelled from the spec as already done. -/
  mean_file_offsets : Option (List Int) := none
  scale : Option ℚ := none
  scale_values : Option String := none
  saved_model_tags : Option String := none
  saved_model_tags_list : Option (List String) := none
  output : Option String := none
  output_list : Option (List String) := none
  input : Option String := none
  input_shape : Option String := none
  batch : Option Nat := none
  output_dir : String := "."
  data_type : String := "float"
  tensorflow_use_custom_operations_config : Option String := none
  transformations_config : Option String := none
  tensorflow_custom_operations_config_update : Option String := none
  extensions : Option String := none
  freeze_placeholder_with_value : Option String := none
  deriving DecidableEq

/-- Modelled from the spec: `deduce_framework_by_namespace` lives in
`mo/utils/guess_framework.py`, which is not under `src/`. Per the spec
the Framework Detector yields one selected framework identifier among
the fixed set; the flag is true iff the framework identifier of the bundle
equals the corresponding name. -/
def is_tf (argv : Argv) : Bool := decide (argv.framework = some "tf")

/-- Modelled from the spec: see `is_tf`. -/
def is_caffe (argv : Argv) : Bool := decide (argv.framework = some "caffe")

/-- Modelled from the spec: see `is_tf`. -/
def is_mxnet (argv : Argv) : Bool := decide (argv.framework = some "mxnet")

/-- Modelled from the spec: see `is_tf`. -/
def is_kaldi (argv : Argv) : Bool := decide (argv.framework = some "kaldi")

/-- Modelled from the spec: see `is_tf`. -/
def is_onnx (argv : Argv) : Bool := decide (argv.framework = some "onnx")

/-- The five framework-selection flags in the order `prepare_ir` unpacks
them (main.py line 99). -/
def frameworkFlags (argv : Argv) : List Bool :=
  [is_tf argv, is_caffe argv, is_mxnet argv, is_kaldi argv, is_onnx argv]

/-- Number of frameworks the detector selects for a bundle. -/
def frameworkCount (argv : Argv) : Nat :=
  (frameworkFlags argv).count true

/-- Filesystem state visible to output-directory resolution: existence,
writability (`os.access(..., os.W_OK)`), and whether `os.makedirs` would
succeed (`canCreate = false` models `PermissionError`). -/
structure FS where
  pathExists : String → Bool
  writable : String → Bool
  canCreate : String → Bool

/-- Effect of a successful `os.makedirs(d)`: `d` exists afterwards and,
having just been created by the current user, is writable by them. -/
def FS.mkdir (fs : FS) (d : String) : FS :=
  { fs with
    pathExists := fun x => decide (x = d) || fs.pathExists x,
    writable := fun x => decide (x = d) || fs.writable x }

/-- Oracle answers of the external collaborators reached from
`prepare_ir`/`emit_ir`: return code of `check_requirements`, and for each
external call that may raise, the exception it raises (or `none` for a
normal return whose opaque result the driver merely stores). -/
structure World where
  check_requirements_ret : Int := 0
  fs : FS
  shapes_err : Option MoErr := none
  tuples_err : Option MoErr := none
  freeze_err : Option MoErr := none
  load_dirs_err : Option MoErr := none
  pipeline_err : Option MoErr := none
  emit_err : Option MoErr := none

/-- Message of main.py line 102, after `Error.__str__` formats the
framework argument into the `--framework` placeholder. The tail after the
placeholder is split out so the fixed enumeration of valid names can be
inspected on its own. -/
def msg_invalid_framework_tail : String :=
  " is not a valid target. Please use --framework with one from the list: caffe, tf, mxnet, kaldi, onnx. "
  ++ refer_to_faq_msg 15

/-- Message of main.py line 102 (`Error` formats `argv.framework` in). -/
def msg_invalid_framework (fw : Option String) : String :=
  "Framework " ++ pyStr fw ++ msg_invalid_framework_tail

/-- Message of main.py line 106. -/
def msg_tf_input_required : String :=
  "Path to input model or saved model dir is required: use --input_model, --saved_model_dir or --input_meta_graph"

/-- Message of main.py line 109. -/
def msg_mxnet_input_required : String :=
  "Path to input model or input symbol or pretrained_model_name is required: use --input_model or --input_symbol or --pretrained_model_name"

/-- Message of main.py line 112. -/
def msg_caffe_input_required : String :=
  "Path to input model or input proto is required: use --input_model or --input_proto"

/-- Message of main.py line 114. -/
def msg_input_model_required : String :=
  "Path to input model is required: use --input_model."

/-- Message of main.py line 143. -/
def msg_cannot_find_prototxt : String :=
  "Cannot find prototxt file: for Caffe please specify --input_proto - a protobuf file that stores topology and --input_model that stores pretrained weights. "
  ++ refer_to_faq_msg 20

/-- Message of main.py line 154. -/
def msg_check_requirements (ret : Int) : String :=
  "check_requirements exit with return code " ++ toString ret

/-- Message of main.py line 161. -/
def msg_mean_file_and_values : String :=
  "Both --mean_file and mean_values are specified. Specify either mean file or mean values. "
  ++ refer_to_faq_msg 17

/-- Message of main.py line 168. -/
def msg_negative_mean_offsets : String :=
  "Negative value specified for --mean_file_offsets option. Please specify positive integer values in format "
  ++ sq ++ "(x,y)" ++ sq ++ ". " ++ refer_to_faq_msg 18

/-- Message of main.py line 174. -/
def msg_scale_and_scale_values : String :=
  "Both --scale and --scale_values are defined. Specify either scale factor or scale values per input channels. "
  ++ refer_to_faq_msg 19

/-- Message of main.py line 183. -/
def msg_model_and_saved_dir : String :=
  "Both --input_model and --saved_model_dir are defined. Specify either input model or saved model directory."

/-- Message of main.py line 188. -/
def msg_saved_model_tags_spaces : String :=
  "Incorrect saved model tag was provided. Specify --saved_model_tags with no spaces in it"

/-- Message of main.py line 205 (`Error` formats the directory in). -/
def msg_mkdir_permission (dir : String) : String :=
  "Failed to create directory " ++ dir ++ ". Permission denied! " ++ refer_to_faq_msg 22

/-- Message of main.py line 210 (`Error` formats the directory in). -/
def msg_dir_not_writable (dir : String) : String :=
  "Output directory " ++ dir ++ " is not writable for current user. " ++ refer_to_faq_msg 22

/-- Step of main.py lines 101-103: fail unless at least one framework
flag is selected, enumerating the valid framework names. -/
def framework_check (argv : Argv) : Except MoErr Argv :=
  if is_tf argv || is_caffe argv || is_mxnet argv || is_kaldi argv || is_onnx argv then
    .ok argv
  else
    .error (.error (msg_invalid_framework argv.framework))

/-- Step of main.py lines 105-114: per-framework required model-source
fields. -/
def required_input_check (argv : Argv) : Except MoErr Argv :=
  if is_tf argv && !truthyS argv.input_model && !truthyS argv.saved_model_dir
      && !truthyS argv.input_meta_graph then
    .error (.error msg_tf_input_required)
  else if is_mxnet argv && !truthyS argv.input_model && !truthyS argv.input_symbol
      && !truthyS argv.pretrained_model_name then
    .error (.error msg_mxnet_input_required)
  else if is_caffe argv && !truthyS argv.input_model && !truthyS argv.input_proto then
    .error (.error msg_caffe_input_required)
  else if (is_kaldi argv || is_onnx argv) && !truthyS argv.input_model then
    .error (.error msg_input_model_required)
  else
    .ok argv

/-- Step of main.py lines 116-117: Kaldi conversions unconditionally
clear `generate_experimental_IR_V10`. -/
def kaldi_v10_step (argv : Argv) : Argv :=
  if is_kaldi argv then { argv with generate_experimental_IR_V10 := false } else argv

/-- Value computed by main.py lines 122-132 for the output model name. -/
def derived_model_name (argv : Argv) : String :=
  if truthyS argv.model_name then argv.model_name.getD ""
  else if truthyS argv.input_model then get_model_name (argv.input_model.getD "")
  else if is_tf argv && truthyS argv.saved_model_dir then "saved_model"
  else if is_tf argv && truthyS argv.input_meta_graph then get_model_name (argv.input_meta_graph.getD "")
  else if is_mxnet argv && truthyS argv.input_symbol then get_model_name (argv.input_symbol.getD "")
  else "<UNKNOWN_NAME>"

/-- Step of main.py lines 122-133: store the derived name back into the
bundle (`argv.model_name = model_name`). -/
def model_name_step (argv : Argv) : Argv :=
  { argv with model_name := some (derived_model_name argv) }

/-- Step of main.py lines 139-147: for Caffe without an explicit
`--input_proto`, derive the companion path by extension substitution and
fail when `replace_ext` yields `None`. -/
def caffe_proto_step (argv : Argv) : Except MoErr Argv :=
  if is_caffe argv && !truthyS argv.input_proto then
    match replace_ext (argv.input_model.getD "") ".caffemodel" ".prototxt" with
    | some proto => .ok { argv with input_proto := some proto }
    | none => .error (.error msg_cannot_find_prototxt)
  else
    .ok argv

/-- Step of main.py lines 152-154: a nonzero `check_requirements` return
code is turned into an `Error`. -/
def requirements_check (w : World) (argv : Argv) : Except MoErr Argv :=
  if w.check_requirements_ret ≠ 0 then
    .error (.error (msg_check_requirements w.check_requirements_ret))
  else
    .ok argv

/-- Step of main.py lines 156-157 (note the `is not None` test, not
truthiness). -/
def tf_config_step (argv : Argv) : Argv :=
  if is_tf argv && argv.tensorflow_use_custom_operations_config.isSome then
    { argv with transformations_config := argv.tensorflow_use_custom_operations_config }
  else
    argv

/-- Step of main.py lines 159-171: mean-file/mean-values mutual
exclusivity, then validation and in-place normalization of the
mean-file offsets. -/
def mean_checks_step (argv : Argv) : Except MoErr Argv :=
  if is_caffe argv && truthyS argv.mean_file && truthyS argv.mean_values then
    .error (.error msg_mean_file_and_values)
  else if is_caffe argv && truthyS argv.mean_file && argv.mean_file_offsets.isSome then
    if !((argv.mean_file_offsets.getD []).all (fun x => decide (0 ≤ x))) then
      .error (.error msg_negative_mean_offsets)
    else
      .ok { argv with mean_file_offsets := some (argv.mean_file_offsets.getD []) }
  else
    .ok argv

/-- Step of main.py lines 173-180: scale/scale_values mutual
exclusivity; the scale-below-one branch only logs a warning. -/
def scale_checks_step (argv : Argv) : Except MoErr Argv :=
  if truthyQ argv.scale && truthyS argv.scale_values then
    .error (.error msg_scale_and_scale_values)
  else
    .ok argv

/-- Step of main.py lines 182-189: input_model/saved_model_dir mutual
exclusivity and saved-model tag splitting for TensorFlow. -/
def saved_model_checks_step (argv : Argv) : Except MoErr Argv :=
  if truthyS argv.input_model && (is_tf argv && truthyS argv.saved_model_dir) then
    .error (.error msg_model_and_saved_dir)
  else if is_tf argv then
    match argv.saved_model_tags with
    | some tags =>
      if tags.data.contains ' ' then
        .error (.error msg_saved_model_tags_spaces)
      else
        .ok { argv with saved_model_tags_list := some (tags.splitOn ",") }
    | none => .ok argv
  else
    .ok argv

/-- Step of main.py line 191: comma-split the `--output` option. -/
def output_split_step (argv : Argv) : Argv :=
  { argv with
    output_list := if truthyS argv.output then some ((argv.output.getD "").splitOn ",") else none }

/-- Step of main.py lines 193-194: `get_placeholder_shapes` is an
external CLI helper; its opaque result is stored into the bundle, and it
may raise (oracle `shapes_err`). -/
def shapes_step (w : World) (argv : Argv) : Except MoErr Argv :=
  match w.shapes_err with
  | some e => .error e
  | none => .ok argv

/-- Step of main.py lines 196-199: `parse_tuple_pairs` /
`get_mean_scale_dictionary` are external CLI helpers; their opaque result
is stored into the bundle, and they may raise (oracle `tuples_err`). -/
def mean_scale_step (w : World) (argv : Argv) : Except MoErr Argv :=
  match w.tuples_err with
  | some e => .error e
  | none => .ok argv

/-- Output-directory resolution of main.py lines 201-211 as a filesystem
state transformer. The boolean result records whether a directory was
created. -/
def resolve_output_dir (fs : FS) (dir : String) : Except MoErr (FS × Bool) :=
  if !fs.pathExists dir then
    if fs.canCreate dir then
      .ok (fs.mkdir dir, true)
    else
      .error (.error (msg_mkdir_permission dir))
  else
    if !fs.writable dir then
      .error (.error (msg_dir_not_writable dir))
    else
      .ok (fs, false)

/-- Step of main.py lines 201-211 inside `prepare_ir`: run the resolution
against the filesystem of the world. -/
def output_dir_step (w : World) (argv : Argv) : Except MoErr Argv :=
  match resolve_output_dir w.fs argv.output_dir with
  | .error e => .error e
  | .ok _ => .ok argv

/-- Step of main.py lines 221-222: `get_freeze_placeholder_values` is an
external CLI helper; its opaque results are stored into the bundle, and
it may raise (oracle `freeze_err`). -/
def freeze_step (w : World) (argv : Argv) : Except MoErr Argv :=
  match w.freeze_err with
  | some e => .error e
  | none => .ok argv

/-- Step of main.py lines 216-237: comma-split the extension directories
and dispatch `import_extensions.load_dirs` on the framework flag; any
import/discovery failure propagates unclassified (oracle
`load_dirs_err`). -/
def load_dirs_step (w : World) (argv : Argv) : Except MoErr Argv :=
  match w.load_dirs_err with
  | some e => .error e
  | none => .ok argv

/-- Step of main.py line 238: the single call-through to the external
`unified_pipeline`; the graph artifact is opaque, only the raise/return
behavior is modelled (oracle `pipeline_err`). -/
def pipeline_step (w : World) (argv : Argv) : Except MoErr Argv :=
  match w.pipeline_err with
  | some e => .error e
  | none => .ok argv

/-- Embedding of `prepare_ir` (main.py lines 98-239): the statement
blocks in source order, threaded over the mutated bundle; the returned
`Argv` is the bundle as the external pipeline receives it (Python stores
it into the cmd_params entry of the graph). -/
def prepare_ir (w : World) (argv0 : Argv) : Except MoErr Argv := do
  let a1 ← framework_check argv0
  let a2 ← required_input_check a1
  let a3 := kaldi_v10_step a2
  let a4 := model_name_step a3
  let a5 ← caffe_proto_step a4
  let a6 ← requirements_check w a5
  let a7 := tf_config_step a6
  let a8 ← mean_checks_step a7
  let a9 ← scale_checks_step a8
  let a10 ← saved_model_checks_step a9
  let a11 := output_split_step a10
  let a12 ← shapes_step w a11
  let a13 ← mean_scale_step w a12
  let a14 ← output_dir_step w a13
  let a15 ← freeze_step w a14
  let a16 ← load_dirs_step w a15
  pipeline_step w a16

/-- Traversal scope of a graph-finalization pass in `emit_ir`. -/
inductive Scope where
  | topLevelOnly
  | subGraphsOnly
  | graphAndSubGraphs
  deriving DecidableEq, Repr

/-- Graph-finalization passes applied by `emit_ir`. -/
inductive PassName where
  | normalizeTI
  | removeConstOps
  | createConstNodesReplacement
  | removeOutputOps
  deriving DecidableEq, Repr

/-- Trace of the finalization passes `emit_ir` applies (main.py lines
243-249), in order, with the traversal helper each one is run through.
The two `RemoveOutputOps` applications sit under two separate `if`
statements with the identical guard `not ...generate_experimental_IR_V10`. -/
def emit_ir_passes (generate_experimental_IR_V10 : Bool) : List (PassName × Scope) :=
  [(.normalizeTI, .topLevelOnly),
   (.removeConstOps, .graphAndSubGraphs),
   (.createConstNodesReplacement, .graphAndSubGraphs)]
  ++ (if generate_experimental_IR_V10 then [] else [(.removeOutputOps, .subGraphsOnly)])
  ++ (if generate_experimental_IR_V10 then [] else [(.removeOutputOps, .graphAndSubGraphs)])

/-- Embedding of `emit_ir` (main.py lines 242-265): run the finalization
passes, then the external `prepare_emit_ir` (which may raise, oracle
`emit_err`); on a normal return the function returns 0. -/
def emit_ir (w : World) (argv : Argv) : Except MoErr (List (PassName × Scope) × Nat) :=
  match w.emit_err with
  | some e => .error e
  | none => .ok (emit_ir_passes argv.generate_experimental_IR_V10, 0)

/-- Embedding of `driver` (main.py lines 268-290): `emit_ir` applied to
the graph built by `prepare_ir`; the returned integer is the result
of `emit_ir`. -/
def driver (w : World) (argv : Argv) : Except MoErr Nat := do
  let argv' ← prepare_ir w argv
  let (_, r) ← emit_ir w argv'
  pure r

/-- Classification performed by the `except` clauses of `main` (main.py
lines 316-337), in their priority order; total over the exception
taxonomy. -/
def classify : MoErr → ErrCategory
  | .fileNotFound _ => .fileNotFoundCat
  | .notADirectory _ => .fileNotFoundCat
  | .error _ => .configCat
  | .frameworkError _ => .frameworkCat
  | .other _ => .internalCat

/-- Marker the first handler of `main` (main.py line 317) splits the
exception text on before subscripting the second piece. -/
def fnf_marker : String := "No such file or directory:"

/-- Body of the first handler of `main` (main.py lines 316-318): it
builds its concise log message by splitting the exception text on
`fnf_marker` and taking element 1 of the resulting list, then falls
through to `return 1`. Python `str.split` yields a list with a second
element exactly when the (non-empty) separator occurs in the string, so
the subscript succeeds iff the marker is a substring of the text;
otherwise the subscript itself raises an `IndexError`, which no
enclosing handler catches, so it escapes `main`. -/
def fnf_handler (m : String) : Except MoErr Nat :=
  if fnf_marker.data <:+: m.data then .ok 1
  else .error (.other "list index out of range")

/-- Outcome of `main` (main.py lines 293-338): `.ok code` when `main`
returns `code`, `.error e` when an exception escapes `main`. A clean run
returns the result of the driver; a caught `FileNotFoundError` or
`NotADirectoryError` runs the message-splitting handler body
(`fnf_handler`), which can itself raise; the remaining handler bodies
only log (they cannot raise) and fall through to `return 1`. -/
def mo_main_run (w : World) (argv : Argv) : Except MoErr Nat :=
  match driver w argv with
  | .ok r => .ok r
  | .error (.fileNotFound m) => fnf_handler m
  | .error (.notADirectory m) => fnf_handler m
  | .error (.error _) => .ok 1
  | .error (.frameworkError _) => .ok 1
  | .error (.other _) => .ok 1

/-- The pattern occurs as a contiguous substring of the message. -/
abbrev StrContains (hay pat : String) : Prop := pat.data <:+: hay.data

/-- Cooperative filesystem: everything exists, is writable, creatable. -/
def fsOk : FS := { pathExists := fun _ => true, writable := fun _ => true, canCreate := fun _ => true }

/-- Cooperative world: all external collaborators return normally. -/
def wOk : World := { fs := fsOk }

/-- All external collaborators reached from `prepare_ir` return normally
and the output directory already exists and is writable. -/
def goodWorld (w : World) (dir : String) : Prop :=
  w.check_requirements_ret = 0 ∧ w.shapes_err = none ∧ w.tuples_err = none ∧
  w.freeze_err = none ∧ w.load_dirs_err = none ∧ w.pipeline_err = none ∧
  w.fs.pathExists dir = true ∧ w.fs.writable dir = true

@[simp] theorem except_bind_ok {α β : Type} (a : α) (f : α → Except MoErr β) :
    (Except.ok a >>= f) = f a := rfl

@[simp] theorem except_bind_error {α β : Type} (e : MoErr) (f : α → Except MoErr β) :
    ((Except.error e : Except MoErr α) >>= f) = Except.error e := rfl

theorem strContains_append_right (a : String) {b pat : String} (h : StrContains b pat) :
    StrContains (a ++ b) pat := by
  have : pat.data <:+: (a ++ b).data := by
    rw [String.data_append]
    exact h.trans (List.suffix_append a.data b.data).isInfix
  exact this

theorem frameworkCount_le_one (argv : Argv) : frameworkCount argv ≤ 1 := by
  unfold frameworkCount frameworkFlags is_tf is_caffe is_mxnet is_kaldi is_onnx
  rcases h : argv.framework with _ | s
  · decide
  · by_cases h1 : s = "tf"
    · subst h1; decide
    · by_cases h2 : s = "caffe"
      · subst h2; decide
      · by_cases h3 : s = "mxnet"
        · subst h3; decide
        · by_cases h4 : s = "kaldi"
          · subst h4; decide
          · by_cases h5 : s = "onnx"
            · subst h5; decide
            · rw [decide_eq_false (fun hc => h1 (Option.some.inj hc)),
                  decide_eq_false (fun hc => h2 (Option.some.inj hc)),
                  decide_eq_false (fun hc => h3 (Option.some.inj hc)),
                  decide_eq_false (fun hc => h4 (Option.some.inj hc)),
                  decide_eq_false (fun hc => h5 (Option.some.inj hc))]
              decide

theorem flags_false_of_count_ne_one (argv : Argv) (h : frameworkCount argv ≠ 1) :
    is_tf argv = false ∧ is_caffe argv = false ∧ is_mxnet argv = false ∧
    is_kaldi argv = false ∧ is_onnx argv = false := by
  have hle := frameworkCount_le_one argv
  have h0 : frameworkCount argv = 0 := by omega
  have hmem : true ∉ frameworkFlags argv :=
    List.count_eq_zero.mp (by simpa [frameworkCount] using h0)
  refine ⟨?_, ?_, ?_, ?_, ?_⟩
  · cases hx : is_tf argv with
    | false => rfl
    | true => exact absurd (by simp [frameworkFlags, hx]) hmem
  · cases hx : is_caffe argv with
    | false => rfl
    | true => exact absurd (by simp [frameworkFlags, hx]) hmem
  · cases hx : is_mxnet argv with
    | false => rfl
    | true => exact absurd (by simp [frameworkFlags, hx]) hmem
  · cases hx : is_kaldi argv with
    | false => rfl
    | true => exact absurd (by simp [frameworkFlags, hx]) hmem
  · cases hx : is_onnx argv with
    | false => rfl
    | true => exact absurd (by simp [frameworkFlags, hx]) hmem

/-- Claim C2: in `emit_ir`, the output-marker-removal pass
(`RemoveOutputOps`) is applied iff `generate_experimental_IR_V10` is not
set, and when applied it runs exactly twice under that same condition —
once over every nested sub-graph only, once over the top-level graph
together with every nested sub-graph — with both applications kept in
the pass trace. -/
theorem mo_C2 (v10 : Bool) :
    ((PassName.removeOutputOps ∈ (emit_ir_passes v10).map Prod.fst) ↔ v10 = false) ∧
    (emit_ir_passes v10).filter (fun p => p.1 == PassName.removeOutputOps) =
      (if v10 then []
       else [(PassName.removeOutputOps, Scope.subGraphsOnly),
             (PassName.removeOutputOps, Scope.graphAndSubGraphs)]) := by
  cases v10 <;> exact ⟨by decide, by decide⟩

/-- CPython text of a `NotADirectoryError` raised while opening a model
path (errno 20); it never contains the marker the file-not-found handler
of `main` splits on. -/
def msg_not_a_directory : String :=
  "[Errno 20] Not a directory: " ++ sq ++ "m.onnx" ++ sq

def wC3 : World := { fs := fsOk, pipeline_err := some (.notADirectory msg_not_a_directory) }

def argvC3 : Argv := { framework := some "onnx", input_model := some "m.onnx" }

/-- Claim C3 states the evident intent of `main`, but the code slips on
one path: at this concrete run the driver raises a `NotADirectoryError`
— a condition the first `except` clause catches and `classify` places in
the file-not-found category — whose CPython text lacks the marker of
main.py line 317, so the handler body itself raises an `IndexError` that
escapes `main` unclassified: `main` returns neither 1 nor any other
status for this raised condition. -/
theorem mo_C3 :
    driver wC3 argvC3 = .error (.notADirectory msg_not_a_directory) ∧
    classify (.notADirectory msg_not_a_directory) = .fileNotFoundCat ∧
    ¬ StrContains msg_not_a_directory fnf_marker ∧
    mo_main_run wC3 argvC3 = .error (.other "list index out of range") ∧
    mo_main_run wC3 argvC3 ≠ .ok 1 ∧
    mo_main_run wC3 argvC3 ≠ .ok 0 := by
  have h3 : mo_main_run wC3 argvC3 = .error (.other "list index out of range") := by rfl
  refine ⟨by rfl, rfl, by decide, h3, ?_, ?_⟩
  · rw [h3]
    exact fun h => Except.noConfusion h
  · rw [h3]
    exact fun h => Except.noConfusion h

/-- Claim C8: output-directory resolution is idempotent — against an
already-existing writable directory it returns without error, without a
creation attempt and without changing the filesystem, so a second run
after any successful run is a no-op; a directory is only ever created
when it does not exist; and a permission failure during creation raises
the configuration error. -/
theorem mo_C8 (fs : FS) (dir : String) :
    (fs.pathExists dir = true → fs.writable dir = true →
       resolve_output_dir fs dir = .ok (fs, false)) ∧
    (∀ fs1 b, resolve_output_dir fs dir = .ok (fs1, b) →
       resolve_output_dir fs1 dir = .ok (fs1, false)) ∧
    (∀ fs1, resolve_output_dir fs dir = .ok (fs1, true) → fs.pathExists dir = false) ∧
    (fs.pathExists dir = false → fs.canCreate dir = false →
       resolve_output_dir fs dir = .error (.error (msg_mkdir_permission dir))) := by
  refine ⟨?_, ?_, ?_, ?_⟩
  · intro he hw
    simp [resolve_output_dir, he, hw]
  · intro fs1 b h
    unfold resolve_output_dir at h
    cases he : fs.pathExists dir with
    | false =>
      rw [he] at h
      cases hc : fs.canCreate dir with
      | false => simp [hc] at h
      | true =>
        simp [hc] at h
        obtain ⟨h1, h2⟩ := h
        subst h1
        simp [resolve_output_dir, FS.mkdir]
    | true =>
      rw [he] at h
      cases hw : fs.writable dir with
      | false => simp [hw] at h
      | true =>
        simp [hw] at h
        obtain ⟨h1, h2⟩ := h
        subst h1
        simp [resolve_output_dir, he, hw]
  · intro fs1 h
    unfold resolve_output_dir at h
    cases he : fs.pathExists dir with
    | false => rfl
    | true =>
      rw [he] at h
      cases hw : fs.writable dir with
      | false => simp [hw] at h
      | true => simp [hw] at h
  · intro he hc
    simp [resolve_output_dir, he, hc]

def fsC8 : FS := { pathExists := fun _ => true, writable := fun _ => true, canCreate := fun _ => false }

theorem mo_C8_witness : resolve_output_dir fsC8 "out" = .ok (fsC8, false) :=
  (mo_C8 fsC8 "out").1 rfl rfl

theorem splitext_snd_suffix (p : List Char) : (splitext p).2 <:+ p := by
  unfold splitext
  split
  · exact List.nil_suffix
  · split
    · exact List.nil_suffix
    · exact List.drop_suffix _ p
  · split
    · split
      · exact List.nil_suffix
      · exact List.drop_suffix _ p
    · exact List.nil_suffix

theorem replace_ext_eq_none_of_not_suffix {name old : String} (new : String)
    (h : ¬ (old.data <:+ name.data)) : replace_ext name old new = none := by
  unfold replace_ext
  split
  · rename_i heq
    exact absurd (heq ▸ splitext_snd_suffix name.data) h
  · rfl

/-- Claim C1: for every configuration bundle from which zero or more
than one framework can be deduced (`frameworkCount ≠ 1`), `prepare_ir`
fails with the configuration error whose message enumerates the valid
framework names caffe, tf, mxnet, kaldi, onnx; moreover at most one
framework can ever be deduced, so `prepare_ir` proceeds past detection
exactly when one framework is selected. -/
theorem mo_C1 (w : World) (argv : Argv) (h : frameworkCount argv ≠ 1) :
    prepare_ir w argv = .error (.error (msg_invalid_framework argv.framework)) ∧
    StrContains (msg_invalid_framework argv.framework) "caffe" ∧
    StrContains (msg_invalid_framework argv.framework) "tf" ∧
    StrContains (msg_invalid_framework argv.framework) "mxnet" ∧
    StrContains (msg_invalid_framework argv.framework) "kaldi" ∧
    StrContains (msg_invalid_framework argv.framework) "onnx" ∧
    frameworkCount argv ≤ 1 := by
  obtain ⟨h1, h2, h3, h4, h5⟩ := flags_false_of_count_ne_one argv h
  have hfc : framework_check argv = .error (.error (msg_invalid_framework argv.framework)) := by
    unfold framework_check
    simp [h1, h2, h3, h4, h5]
  refine ⟨?_, ?_, ?_, ?_, ?_, ?_, frameworkCount_le_one argv⟩
  · unfold prepare_ir
    rw [hfc]
    rfl
  all_goals {
    unfold msg_invalid_framework
    exact strContains_append_right _ (by decide)
  }

theorem mo_C1_witness :
    frameworkCount ({ framework := some "torch" } : Argv) ≠ 1 ∧
    prepare_ir wOk { framework := some "torch" } =
      .error (.error (msg_invalid_framework (some "torch"))) :=
  ⟨by decide, (mo_C1 wOk { framework := some "torch" } (by decide)).1⟩

/-- Claim C5: for MXNet, a configuration with none of `input_model`,
`input_symbol` and `pretrained_model_name` set makes `prepare_ir` raise
the configuration error naming all three acceptable alternatives, and
the exit status of the run is 1. -/
theorem mo_C5 (w : World) (argv : Argv)
    (hfw : argv.framework = some "mxnet")
    (h1 : truthyS argv.input_model = false)
    (h2 : truthyS argv.input_symbol = false)
    (h3 : truthyS argv.pretrained_model_name = false) :
    prepare_ir w argv = .error (.error msg_mxnet_input_required) ∧
    mo_main_run w argv = .ok 1 ∧
    StrContains msg_mxnet_input_required "--input_model" ∧
    StrContains msg_mxnet_input_required "--input_symbol" ∧
    StrContains msg_mxnet_input_required "--pretrained_model_name" := by
  have hpre : prepare_ir w argv = .error (.error msg_mxnet_input_required) := by
    simp +decide [prepare_ir, framework_check, required_input_check,
      is_tf, is_caffe, is_mxnet, is_kaldi, is_onnx, hfw, h1, h2, h3]
  have hdrv : driver w argv = .error (.error msg_mxnet_input_required) := by
    unfold driver
    rw [hpre]
    rfl
  refine ⟨hpre, ?_, by decide, by decide, by decide⟩
  unfold mo_main_run
  rw [hdrv]

theorem mo_C5_witness : mo_main_run wOk { framework := some "mxnet" } = .ok 1 :=
  (mo_C5 wOk { framework := some "mxnet" } rfl rfl rfl rfl).2.1

/-- Claim C9: for Caffe, a configuration with both the mean-values and
the mean-file option set makes validation fail with the configuration
error citing both option names. -/
theorem mo_C9 (w : World) (argv : Argv)
    (hfw : argv.framework = some "caffe")
    (hproto : truthyS argv.input_proto = true)
    (hreq : w.check_requirements_ret = 0)
    (hmf : truthyS argv.mean_file = true)
    (hmv : truthyS argv.mean_values = true) :
    prepare_ir w argv = .error (.error msg_mean_file_and_values) ∧
    StrContains msg_mean_file_and_values "--mean_file" ∧
    StrContains msg_mean_file_and_values "mean_values" := by
  refine ⟨?_, by decide, by decide⟩
  simp +decide [prepare_ir, framework_check, required_input_check, kaldi_v10_step,
    model_name_step, caffe_proto_step, requirements_check, tf_config_step,
    mean_checks_step, is_tf, is_caffe, is_mxnet, is_kaldi, is_onnx,
    hfw, hproto, hreq, hmf, hmv]

def argvC9 : Argv :=
  { framework := some "caffe", input_proto := some "net.prototxt",
    mean_file := some "mf.binaryproto", mean_values := some "(1,2,3)" }

theorem mo_C9_witness : prepare_ir wOk argvC9 = .error (.error msg_mean_file_and_values) :=
  (mo_C9 wOk argvC9 rfl rfl rfl rfl rfl).1

/-- Claim C4: for Caffe with no explicit `--input_proto`, `prepare_ir`
derives the companion path from the primary model path by substituting
the `.caffemodel` extension with `.prototxt` (storing it in the bundle),
and for every primary model path that does not end in `.caffemodel` the
derivation cannot be formed and `prepare_ir` raises the configuration
error. -/
theorem mo_C4 (w : World) (argv : Argv) (p : String)
    (hfw : argv.framework = some "caffe")
    (him : argv.input_model = some p)
    (hp : p.isEmpty = false)
    (hproto : argv.input_proto = none) :
    (¬ (".caffemodel".data <:+ p.data) →
       prepare_ir w argv = .error (.error msg_cannot_find_prototxt)) ∧
    (∀ base, replace_ext p ".caffemodel" ".prototxt" = some base →
       truthyS argv.mean_file = false → truthyQ argv.scale = false →
       goodWorld w argv.output_dir →
       ∃ a, prepare_ir w argv = .ok a ∧ a.input_proto = some base) := by
  constructor
  · intro hns
    have hre := replace_ext_eq_none_of_not_suffix ".prototxt" hns
    simp +decide [prepare_ir, framework_check, required_input_check, kaldi_v10_step,
      model_name_step, caffe_proto_step, is_tf, is_caffe, is_mxnet, is_kaldi, is_onnx,
      hfw, him, hp, hproto, hre]
  · intro base hbase hmf hsc hgw
    obtain ⟨g1, g2, g3, g4, g5, g6, g7, g8⟩ := hgw
    simp +decide [prepare_ir, framework_check, required_input_check, kaldi_v10_step,
      model_name_step, caffe_proto_step, requirements_check, tf_config_step,
      mean_checks_step, scale_checks_step, saved_model_checks_step, output_split_step,
      shapes_step, mean_scale_step, output_dir_step, resolve_output_dir, freeze_step,
      load_dirs_step, pipeline_step, is_tf, is_caffe, is_mxnet, is_kaldi, is_onnx,
      hfw, him, hp, hproto, hbase, hmf, hsc, g1, g2, g3, g4, g5, g6, g7, g8]

def argvC4 : Argv := { framework := some "caffe", input_model := some "model.caffemodel" }

theorem mo_C4_witness :
    ∃ a, prepare_ir wOk argvC4 = .ok a ∧ a.input_proto = some "model.prototxt" :=
  (mo_C4 wOk argvC4 "model.caffemodel" rfl rfl rfl rfl).2 "model.prototxt" (by rfl)
    rfl rfl ⟨rfl, rfl, rfl, rfl, rfl, rfl, rfl, rfl⟩

/-- Claim C6: for Caffe with a mean file given, a mean-file-offsets list
containing a negative integer makes validation fail with the
configuration error naming the offending option and the expected format,
while a list of non-negative integers is normalized in place into the
bundle as the array of parsed integers. -/
theorem mo_C6 (w : World) (argv : Argv) (l : List Int)
    (hfw : argv.framework = some "caffe")
    (hproto : truthyS argv.input_proto = true)
    (hreq : w.check_requirements_ret = 0)
    (hmf : truthyS argv.mean_file = true)
    (hmv : truthyS argv.mean_values = false)
    (hoff : argv.mean_file_offsets = some l) :
    ((∃ x ∈ l, x < 0) →
       prepare_ir w argv = .error (.error msg_negative_mean_offsets) ∧
       StrContains msg_negative_mean_offsets "--mean_file_offsets" ∧
       StrContains msg_negative_mean_offsets "(x,y)") ∧
    ((∀ x ∈ l, 0 ≤ x) → truthyQ argv.scale = false → goodWorld w argv.output_dir →
       ∃ a, prepare_ir w argv = .ok a ∧ a.mean_file_offsets = some l) := by
  constructor
  · intro hex
    have hall : (l.all fun x => decide (0 ≤ x)) = false := by
      obtain ⟨x, hxl, hxneg⟩ := hex
      cases hcall : l.all fun x => decide (0 ≤ x) with
      | false => rfl
      | true =>
        have hx := of_decide_eq_true (List.all_eq_true.mp hcall x hxl)
        omega
    refine ⟨?_, by decide, by decide⟩
    simp +decide [prepare_ir, framework_check, required_input_check, kaldi_v10_step,
      model_name_step, caffe_proto_step, requirements_check, tf_config_step,
      mean_checks_step, is_tf, is_caffe, is_mxnet, is_kaldi, is_onnx,
      hfw, hproto, hreq, hmf, hmv, hoff, hall, hex]
  · intro hpos hsc hgw
    obtain ⟨g1, g2, g3, g4, g5, g6, g7, g8⟩ := hgw
    have hall : (l.all fun x => decide (0 ≤ x)) = true := by
      rw [List.all_eq_true]
      intro x hx
      exact decide_eq_true (hpos x hx)
    have hnone : ¬ ∃ x ∈ l, x < 0 := by
      rintro ⟨x, hx, hlt⟩
      exact absurd hlt (not_lt.mpr (hpos x hx))
    simp +decide [prepare_ir, framework_check, required_input_check, kaldi_v10_step,
      model_name_step, caffe_proto_step, requirements_check, tf_config_step,
      mean_checks_step, scale_checks_step, saved_model_checks_step, output_split_step,
      shapes_step, mean_scale_step, output_dir_step, resolve_output_dir, freeze_step,
      load_dirs_step, pipeline_step, is_tf, is_caffe, is_mxnet, is_kaldi, is_onnx,
      hfw, hproto, hreq, hmf, hmv, hoff, hall, hnone, hsc, g1, g2, g3, g4, g5, g6, g7, g8]

def argvC6 : Argv :=
  { framework := some "caffe", input_proto := some "net2.prototxt",
    mean_file := some "mf.binaryproto", mean_file_offsets := some [-1, 2] }

theorem mo_C6_witness : prepare_ir wOk argvC6 = .error (.error msg_negative_mean_offsets) :=
  ((mo_C6 wOk argvC6 [-1, 2] rfl rfl rfl rfl rfl rfl).1 ⟨-1, by decide, by decide⟩).1

def argvC7 : Argv := { framework := some "tf", saved_model_dir := some "/home/user/bar.dir" }

/-- Claim C7 is refuted as stated: with no explicit model name and a TF
saved-model directory as the only supplied input path, the derived name
is the fixed string "saved_model", not the basename-minus-extension
("bar") of the supplied path. -/
theorem mo_C7_counterexample :
    (model_name_step argvC7).model_name = some "saved_model" ∧
    get_model_name "/home/user/bar.dir" = "bar" ∧
    (model_name_step argvC7).model_name ≠ some (get_model_name "/home/user/bar.dir") := by
  decide

/-- Claim C7 (amended): if no explicit output model name is given, the
name is derived deterministically and stored back into the bundle: the
basename-minus-extension of `input_model` when supplied; else the fixed
name "saved_model" for a TF saved-model directory; else the
basename-minus-extension of a TF meta-graph or MXNet symbol path; and
the placeholder `<UNKNOWN_NAME>` when no input path is supplied. -/
theorem mo_C7 (argv : Argv) (h : truthyS argv.model_name = false) :
    (model_name_step argv).model_name = some (derived_model_name argv) ∧
    (truthyS argv.input_model = true →
       derived_model_name argv = get_model_name (argv.input_model.getD "")) ∧
    (truthyS argv.input_model = false → is_tf argv = true →
       truthyS argv.saved_model_dir = true →
       derived_model_name argv = "saved_model") ∧
    (truthyS argv.input_model = false → is_tf argv = true →
       truthyS argv.saved_model_dir = false → truthyS argv.input_meta_graph = true →
       derived_model_name argv = get_model_name (argv.input_meta_graph.getD "")) ∧
    (truthyS argv.input_model = false → is_mxnet argv = true →
       truthyS argv.input_symbol = true →
       derived_model_name argv = get_model_name (argv.input_symbol.getD "")) ∧
    (truthyS argv.input_model = false → truthyS argv.saved_model_dir = false →
       truthyS argv.input_meta_graph = false → truthyS argv.input_symbol = false →
       derived_model_name argv = "<UNKNOWN_NAME>") := by
  refine ⟨rfl, ?_, ?_, ?_, ?_, ?_⟩
  · intro him
    simp [derived_model_name, h, him]
  · intro him htf hsd
    simp [derived_model_name, h, him, htf, hsd]
  · intro him htf hsd hmg
    simp [derived_model_name, h, him, htf, hsd, hmg]
  · intro him hmx hsym
    have hfw : argv.framework = some "mxnet" := of_decide_eq_true hmx
    have htf : is_tf argv = false := by simp +decide [is_tf, hfw]
    simp [derived_model_name, h, him, htf, hmx, hsym]
  · intro him hsd hmg hsym
    simp [derived_model_name, h, him, hsd, hmg, hsym]

def argvC7w : Argv := { framework := some "caffe", input_model := some "dir/model.caffemodel" }

theorem mo_C7_witness :
    (model_name_step argvC7w).model_name = some (derived_model_name argvC7w) ∧
    derived_model_name argvC7w = get_model_name "dir/model.caffemodel" :=
  ⟨(mo_C7 argvC7w rfl).1, (mo_C7 argvC7w rfl).2.1 rfl⟩

theorem bind_ok_elim {α β : Type} {f : Except MoErr α} {g : α → Except MoErr β} {b : β}
    (h : (f >>= g) = .ok b) : ∃ a, f = .ok a ∧ g a = .ok b := by
  cases hf : f with
  | error e =>
    rw [hf] at h
    rw [except_bind_error] at h
    exact Except.noConfusion h
  | ok a =>
    rw [hf] at h
    rw [except_bind_ok] at h
    exact ⟨a, rfl, h⟩

theorem framework_check_ok_eq {a b : Argv} (h : framework_check a = .ok b) : b = a := by
  unfold framework_check at h
  split at h
  · exact (Except.ok.inj h).symm
  · exact Except.noConfusion h

theorem required_input_check_ok_eq {a b : Argv} (h : required_input_check a = .ok b) : b = a := by
  unfold required_input_check at h
  split at h
  · exact Except.noConfusion h
  · split at h
    · exact Except.noConfusion h
    · split at h
      · exact Except.noConfusion h
      · split at h
        · exact Except.noConfusion h
        · exact (Except.ok.inj h).symm

theorem requirements_check_ok_eq {w : World} {a b : Argv}
    (h : requirements_check w a = .ok b) : b = a := by
  unfold requirements_check at h
  split at h
  · exact Except.noConfusion h
  · exact (Except.ok.inj h).symm

theorem scale_checks_ok_eq {a b : Argv} (h : scale_checks_step a = .ok b) : b = a := by
  unfold scale_checks_step at h
  split at h
  · exact Except.noConfusion h
  · exact (Except.ok.inj h).symm

theorem shapes_step_ok_eq {w : World} {a b : Argv} (h : shapes_step w a = .ok b) : b = a := by
  unfold shapes_step at h
  split at h
  · exact Except.noConfusion h
  · exact (Except.ok.inj h).symm

theorem mean_scale_step_ok_eq {w : World} {a b : Argv}
    (h : mean_scale_step w a = .ok b) : b = a := by
  unfold mean_scale_step at h
  split at h
  · exact Except.noConfusion h
  · exact (Except.ok.inj h).symm

theorem output_dir_step_ok_eq {w : World} {a b : Argv}
    (h : output_dir_step w a = .ok b) : b = a := by
  unfold output_dir_step at h
  split at h
  · exact Except.noConfusion h
  · exact (Except.ok.inj h).symm

theorem freeze_step_ok_eq {w : World} {a b : Argv} (h : freeze_step w a = .ok b) : b = a := by
  unfold freeze_step at h
  split at h
  · exact Except.noConfusion h
  · exact (Except.ok.inj h).symm

theorem load_dirs_step_ok_eq {w : World} {a b : Argv}
    (h : load_dirs_step w a = .ok b) : b = a := by
  unfold load_dirs_step at h
  split at h
  · exact Except.noConfusion h
  · exact (Except.ok.inj h).symm

theorem pipeline_step_ok_eq {w : World} {a b : Argv}
    (h : pipeline_step w a = .ok b) : b = a := by
  unfold pipeline_step at h
  split at h
  · exact Except.noConfusion h
  · exact (Except.ok.inj h).symm

theorem caffe_proto_step_ok_v10 {a b : Argv} (h : caffe_proto_step a = .ok b) :
    b.generate_experimental_IR_V10 = a.generate_experimental_IR_V10 := by
  unfold caffe_proto_step at h
  split at h
  · split at h
    · have h' := (Except.ok.inj h).symm
      subst h'
      rfl
    · exact Except.noConfusion h
  · have h' := (Except.ok.inj h).symm
    subst h'
    rfl

theorem mean_checks_step_ok_v10 {a b : Argv} (h : mean_checks_step a = .ok b) :
    b.generate_experimental_IR_V10 = a.generate_experimental_IR_V10 := by
  unfold mean_checks_step at h
  split at h
  · exact Except.noConfusion h
  · split at h
    · split at h
      · exact Except.noConfusion h
      · have h' := (Except.ok.inj h).symm
        subst h'
        rfl
    · have h' := (Except.ok.inj h).symm
      subst h'
      rfl

theorem saved_model_checks_step_ok_v10 {a b : Argv} (h : saved_model_checks_step a = .ok b) :
    b.generate_experimental_IR_V10 = a.generate_experimental_IR_V10 := by
  unfold saved_model_checks_step at h
  split at h
  · exact Except.noConfusion h
  · split at h
    · split at h
      · split at h
        · exact Except.noConfusion h
        · have h' := (Except.ok.inj h).symm
          subst h'
          rfl
      · have h' := (Except.ok.inj h).symm
        subst h'
        rfl
    · have h' := (Except.ok.inj h).symm
      subst h'
      rfl

theorem prepare_ir_ok_v10 {w : World} {argv b : Argv} (h : prepare_ir w argv = .ok b) :
    b.generate_experimental_IR_V10 = (kaldi_v10_step argv).generate_experimental_IR_V10 := by
  unfold prepare_ir at h
  obtain ⟨a1, h1, hr1⟩ := bind_ok_elim h
  rw [framework_check_ok_eq h1] at hr1
  obtain ⟨a2, h2, hr2⟩ := bind_ok_elim hr1
  rw [required_input_check_ok_eq h2] at hr2
  obtain ⟨a5, h5, hr3⟩ := bind_ok_elim hr2
  have e5 := caffe_proto_step_ok_v10 h5
  obtain ⟨a6, h6, hr4⟩ := bind_ok_elim hr3
  rw [requirements_check_ok_eq h6] at hr4
  obtain ⟨a8, h8, hr5⟩ := bind_ok_elim hr4
  have e8 := mean_checks_step_ok_v10 h8
  obtain ⟨a9, h9, hr6⟩ := bind_ok_elim hr5
  rw [scale_checks_ok_eq h9] at hr6
  obtain ⟨a10, h10, hr7⟩ := bind_ok_elim hr6
  have e10 := saved_model_checks_step_ok_v10 h10
  obtain ⟨a12, h12, hr8⟩ := bind_ok_elim hr7
  rw [shapes_step_ok_eq h12] at hr8
  obtain ⟨a13, h13, hr9⟩ := bind_ok_elim hr8
  rw [mean_scale_step_ok_eq h13] at hr9
  obtain ⟨a14, h14, hr10⟩ := bind_ok_elim hr9
  rw [output_dir_step_ok_eq h14] at hr10
  obtain ⟨a15, h15, hr11⟩ := bind_ok_elim hr10
  rw [freeze_step_ok_eq h15] at hr11
  obtain ⟨a16, h16, hr12⟩ := bind_ok_elim hr11
  rw [load_dirs_step_ok_eq h16] at hr12
  have efin := pipeline_step_ok_eq hr12
  have t7 : (tf_config_step a5).generate_experimental_IR_V10 =
      a5.generate_experimental_IR_V10 := by
    unfold tf_config_step
    split
    · rfl
    · rfl
  rw [efin]
  calc (output_split_step a10).generate_experimental_IR_V10
      = a10.generate_experimental_IR_V10 := rfl
    _ = a8.generate_experimental_IR_V10 := e10
    _ = (tf_config_step a5).generate_experimental_IR_V10 := e8
    _ = a5.generate_experimental_IR_V10 := t7
    _ = (model_name_step (kaldi_v10_step argv)).generate_experimental_IR_V10 := e5
    _ = (kaldi_v10_step argv).generate_experimental_IR_V10 := rfl

/-- Claim C10: for every configuration whose detected framework is
Kaldi, `prepare_ir` overwrites `generate_experimental_IR_V10` to false
regardless of its user-supplied value, so the two output-marker-removal
passes of `emit_ir` always execute for Kaldi conversions. -/
theorem mo_C10 (w : World) (argv a : Argv)
    (hfw : argv.framework = some "kaldi")
    (hok : prepare_ir w argv = .ok a) :
    a.generate_experimental_IR_V10 = false ∧
    (PassName.removeOutputOps, Scope.subGraphsOnly) ∈
      emit_ir_passes a.generate_experimental_IR_V10 ∧
    (PassName.removeOutputOps, Scope.graphAndSubGraphs) ∈
      emit_ir_passes a.generate_experimental_IR_V10 := by
  have hv := prepare_ir_ok_v10 hok
  have hk : is_kaldi argv = true := by simp +decide [is_kaldi, hfw]
  have hkv : (kaldi_v10_step argv).generate_experimental_IR_V10 = false := by
    unfold kaldi_v10_step
    rw [hk]
    rfl
  have hfinal : a.generate_experimental_IR_V10 = false := hv.trans hkv
  rw [hfinal]
  exact ⟨rfl, by decide, by decide⟩

def argvC10 : Argv :=
  { framework := some "kaldi", input_model := some "m.nnet",
    generate_experimental_IR_V10 := true }

theorem mo_C10_witness :
    ∃ a, prepare_ir wOk argvC10 = .ok a ∧ a.generate_experimental_IR_V10 = false := by
  have hok : prepare_ir wOk argvC10 =
      .ok { framework := some "kaldi", input_model := some "m.nnet",
            generate_experimental_IR_V10 := false, model_name := some "m" } := by rfl
  exact ⟨_, hok, (mo_C10 wOk argvC10 _ rfl hok).1⟩

end MO
